import Mathlib

/-!
Verification of the Apple Wallet pass generation and signing pipeline of
`py_wallet_pass` (file `py_wallet_pass/providers/apple_pass.py`), against its
natural-language specification.

The Python code is shallowly embedded: Python dictionaries become association
lists with insert-or-replace semantics preserving insertion order (the
semantics of `dict` assignment), arbitrary Python values become the inductive
type `PValue`, bytes become `List Nat` (each element `< 256`), and raised
exceptions become `Except PyErr`.
-/

/-- A dynamically typed Python value as it can appear inside a pass
document: strings, ints, booleans, `None`, lists and dicts. -/
inductive PValue where
  | str (s : String)
  | int (n : Int)
  | bool (b : Bool)
  | null
  | arr (xs : List PValue)
  | obj (kvs : List (String × PValue))

/-- A Python dictionary with `PValue` values, as an insertion-ordered
association list. -/
abbrev PDict := List (String × PValue)

/-- Dictionary lookup (`d.get(k)` / `d[k]`): first binding of the key wins;
in a well-formed dict keys are unique so this is the binding. -/
def dget {α : Type} (d : List (String × α)) (k : String) : Option α :=
  match d with
  | [] => none
  | (k₀, v) :: rest => if k₀ = k then some v else dget rest k

/-- Dictionary assignment `d[k] = v`: replaces the value in place if the key
is present (keeping its position), otherwise appends the new binding at the
end — exactly the observable behaviour of assignment on a Python `dict`. -/
def dinsert {α : Type} (d : List (String × α)) (k : String) (v : α) :
    List (String × α) :=
  match d with
  | [] => [(k, v)]
  | (k₀, v₀) :: rest =>
    if k₀ = k then (k₀, v) :: rest else (k₀, v₀) :: dinsert rest k v

/-- The keys of a dictionary, in order. -/
def dkeys {α : Type} (d : List (String × α)) : List String := d.map Prod.fst

theorem dget_dinsert {α : Type} (d : List (String × α)) (k k' : String) (v : α) :
    dget (dinsert d k v) k' = if k = k' then some v else dget d k' := by
  induction d with
  | nil =>
    by_cases h : k = k' <;> simp [dinsert, dget, h]
  | cons p rest ih =>
    obtain ⟨k₀, v₀⟩ := p
    by_cases h0 : k₀ = k
    · subst h0
      by_cases h : k₀ = k' <;> simp [dinsert, dget, h]
    · simp only [dinsert, if_neg h0]
      by_cases h : k₀ = k'
      · subst h
        have : ¬ k = k₀ := fun hh => h0 hh.symm
        simp [dget, this]
      · simp [dget, h, ih]

theorem dkeys_dinsert {α : Type} (d : List (String × α)) (k : String) (v : α) :
    dkeys (dinsert d k v) =
      if k ∈ dkeys d then dkeys d else dkeys d ++ [k] := by
  induction d with
  | nil => simp [dinsert, dkeys]
  | cons p rest ih =>
    obtain ⟨k₀, v₀⟩ := p
    by_cases h0 : k₀ = k
    · subst h0
      simp [dinsert, dkeys]
    · have h0' : ¬ k = k₀ := fun hh => h0 hh.symm
      simp only [dinsert, if_neg h0, dkeys, List.map_cons]
      simp only [dkeys] at ih
      rw [ih]
      by_cases hmem : k ∈ rest.map Prod.fst <;>
        simp [hmem, h0']

theorem dkeys_nodup_dinsert {α : Type} (d : List (String × α)) (k : String)
    (v : α) (h : (dkeys d).Nodup) : (dkeys (dinsert d k v)).Nodup := by
  rw [dkeys_dinsert]
  by_cases hmem : k ∈ dkeys d
  · simpa [hmem]
  · simpa [hmem, List.nodup_append] using h

theorem dget_mem_dkeys {α : Type} (d : List (String × α)) (k : String)
    (h : dget d k ≠ none) : k ∈ dkeys d := by
  induction d with
  | nil => simp [dget] at h
  | cons p rest ih =>
    obtain ⟨k₀, v₀⟩ := p
    by_cases h0 : k₀ = k
    · subst h0; simp [dkeys]
    · simp only [dget, if_neg h0] at h
      simpa [dkeys] using Or.inr (ih h)

/-! ### SHA-1 (`hashlib.sha1(...).hexdigest()`)

The manifest builder hashes each packaged file with SHA-1 and records the
lowercase hexadecimal digest.  The hash is implemented here directly over
byte lists, with 32-bit words represented as `Nat` reduced `% 2^32`. -/

/-- `2^32`, the modulus for 32-bit word arithmetic. -/
def M32 : Nat := 4294967296

/-- Left-rotation of a 32-bit word by `s` bits. -/
def rotl (s x : Nat) : Nat := ((x <<< s) % M32) ||| (x >>> (32 - s))

/-- The SHA-1 round function `f` for round `i`. -/
def sha1F (i b c d : Nat) : Nat :=
  if i < 20 then (b &&& c) ||| ((b ^^^ 4294967295) &&& d)
  else if i < 40 then b ^^^ c ^^^ d
  else if i < 60 then (b &&& c) ||| (b &&& d) ||| (c &&& d)
  else b ^^^ c ^^^ d

/-- The SHA-1 round constant `K` for round `i`. -/
def sha1K (i : Nat) : Nat :=
  if i < 20 then 1518500249
  else if i < 40 then 1859775393
  else if i < 60 then 2400959708
  else 3395469782

/-- Message-schedule extension: `w` is the schedule so far, most recent word
first; each step pushes `rotl 1 (w[t-3] ^^^ w[t-8] ^^^ w[t-14] ^^^ w[t-16])`. -/
def sha1Extend : Nat → List Nat → List Nat
  | 0, w => w
  | n + 1, w =>
    sha1Extend n
      (rotl 1 ((w.getD 2 0) ^^^ (w.getD 7 0) ^^^ (w.getD 13 0) ^^^ (w.getD 15 0)) :: w)

/-- The 80 compression rounds, consuming the message schedule. -/
def sha1Rounds : Nat → List Nat → Nat × Nat × Nat × Nat × Nat →
    Nat × Nat × Nat × Nat × Nat
  | _, [], st => st
  | i, w :: ws, (a, b, c, d, e) =>
    sha1Rounds (i + 1) ws
      ((rotl 5 a + sha1F i b c d + e + sha1K i + w) % M32, a, rotl 30 b, c, d)

/-- A big-endian 32-bit word from (up to) four bytes. -/
def word4 (l : List Nat) : Nat :=
  (l.getD 0 0) * 16777216 + (l.getD 1 0) * 65536 + (l.getD 2 0) * 256 + l.getD 3 0

/-- Split a byte list into the 16 big-endian words of one 64-byte block. -/
def blockWords (l : List Nat) : List Nat :=
  (List.range 16).map (fun i => word4 ((l.drop (4 * i)).take 4))

/-- Process one 64-byte block, updating the five-word chaining state. -/
def sha1Block (h : Nat × Nat × Nat × Nat × Nat) (block : List Nat) :
    Nat × Nat × Nat × Nat × Nat :=
  let ws := (sha1Extend 64 (blockWords block).reverse).reverse
  match h, sha1Rounds 0 ws h with
  | (h0, h1, h2, h3, h4), (a, b, c, d, e) =>
    ((h0 + a) % M32, (h1 + b) % M32, (h2 + c) % M32, (h3 + d) % M32, (h4 + e) % M32)

/-- Big-endian byte expansion of `n` to `k` bytes. -/
def beBytes : Nat → Nat → List Nat
  | 0, _ => []
  | k + 1, n => beBytes k (n / 256) ++ [n % 256]

/-- SHA-1 padding: a `0x80` byte, zeros to 56 mod 64, then the bit length as
eight big-endian bytes. -/
def sha1Pad (msg : List Nat) : List Nat :=
  msg ++ [128] ++ List.replicate ((64 - ((msg.length + 9) % 64)) % 64) 0 ++
    beBytes 8 (msg.length * 8)

set_option linter.unusedVariables false in
/-- Split the padded message into 64-byte blocks. -/
def chunk64 (l : List Nat) : List (List Nat) :=
  if h : l = [] then [] else
    l.take 64 :: chunk64 (l.drop 64)
termination_by l.length
decreasing_by
  simp only [List.length_drop]
  exact Nat.sub_lt (List.length_pos.mpr h) (by decide)

/-- The SHA-1 initial chaining state. -/
def sha1Init : Nat × Nat × Nat × Nat × Nat :=
  (1732584193, 4023233417, 2562383102, 271733878, 3285377520)

/-- One lowercase hexadecimal digit. -/
def hexChar (n : Nat) : Char :=
  if n < 10 then Char.ofNat (48 + n) else Char.ofNat (87 + n)

/-- A 32-bit word as eight lowercase hexadecimal digits. -/
def hexWord (w : Nat) : String :=
  String.mk ((List.range 8).map (fun i => hexChar ((w >>> (28 - 4 * i)) % 16)))

/-- `hashlib.sha1(msg).hexdigest()`: the lowercase hex digest of a byte
string. -/
def sha1Hex (msg : List Nat) : String :=
  match (chunk64 (sha1Pad msg)).foldl sha1Block sha1Init with
  | (h0, h1, h2, h3, h4) =>
    hexWord h0 ++ hexWord h1 ++ hexWord h2 ++ hexWord h3 ++ hexWord h4

/-! ### Data model

`py_wallet_pass/schema/core.py` and `py_wallet_pass/config.py` are not among
the available sources; the record shapes below are reconstructed from how
`apple_pass.py`, `util.py`, the examples and the test fixtures use them.
Optional text attributes are `Option String`; Python truthiness (`if x:`)
treats `none` and the empty string as falsy. -/

/-- Python truthiness of an optional string: `None` and `""` are falsy. -/
def pyTruthy (o : Option String) : Bool :=
  match o with
  | none => false
  | some s => !s.isEmpty

/-- An optional string as the Python value it serializes to: `None` becomes
JSON `null`, a string stays a string. -/
def optPV (o : Option String) : PValue :=
  match o with
  | none => PValue.null
  | some s => PValue.str s

/-- Modelled from the spec: the pass-type enumeration (`PassType` in the
missing `schema/core.py`), "a closed tagged-variant enumeration over
{Apple, Google, Samsung} × {pass subtype}".  The variants are the ones the
sources use; dispatch on the `APPLE_`/`GOOGLE_` name prefix in
`manager.py` (`pass_type.name`) and `apple_pass.py` (`pass_type.value`)
requires the enumeration value to be its name string. -/
inductive PassType where
  | APPLE_GENERIC
  | APPLE_EVENTTICKET
  | APPLE_COUPON
  | APPLE_STORECARD
  | APPLE_BOARDINGPASS
  | GOOGLE_EVENT_TICKET
  | GOOGLE_OFFER
  | GOOGLE_LOYALTY
  | GOOGLE_FLIGHT
  | SAMSUNG_COUPON
  | SAMSUNG_MEMBERSHIP
  deriving DecidableEq

/-- `PassType.value`: the string value of the enumeration member. -/
def PassType.value : PassType → String
  | .APPLE_GENERIC => "APPLE_GENERIC"
  | .APPLE_EVENTTICKET => "APPLE_EVENTTICKET"
  | .APPLE_COUPON => "APPLE_COUPON"
  | .APPLE_STORECARD => "APPLE_STORECARD"
  | .APPLE_BOARDINGPASS => "APPLE_BOARDINGPASS"
  | .GOOGLE_EVENT_TICKET => "GOOGLE_EVENT_TICKET"
  | .GOOGLE_OFFER => "GOOGLE_OFFER"
  | .GOOGLE_LOYALTY => "GOOGLE_LOYALTY"
  | .GOOGLE_FLIGHT => "GOOGLE_FLIGHT"
  | .SAMSUNG_COUPON => "SAMSUNG_COUPON"
  | .SAMSUNG_MEMBERSHIP => "SAMSUNG_MEMBERSHIP"

/-- The configuration fields `apple_pass.py` reads (`WalletConfig`).  The six
Apple fields are optional so that a missing one is representable; `storage`
and web-service fields as used by the provider. -/
structure WalletConfig where
  apple_pass_type_identifier : Option String
  apple_team_identifier : Option String
  apple_organization_name : Option String
  apple_certificate_path : Option String
  apple_private_key_path : Option String
  apple_wwdr_certificate_path : Option String
  web_service_url : Option String

/-- One field of a pass template (`PassField`): the key is a string (it is
used for dictionary lookups); label, default value and formatting hints are
carried verbatim into the document. -/
structure PassField where
  key : String
  label : PValue
  value : PValue
  change_message : Option String
  text_alignment : Option String
  date_style : Option String
  time_style : Option String
  is_relative : Bool
  currency_code : Option String
  number_format : Option String

/-- The five ordered per-region field lists of a template
(`PassStructure`). -/
structure PassStructure where
  header_fields : List PassField
  primary_fields : List PassField
  secondary_fields : List PassField
  auxiliary_fields : List PassField
  back_fields : List PassField

/-- Template visual style (`PassStyle`). -/
structure PassStyle where
  background_color : Option String
  foreground_color : Option String
  label_color : Option String
  logo_text : Option String

/-- A geofence location; the numeric coordinates are carried verbatim into
the document, so they are arbitrary Python values here. -/
structure Location where
  latitude : PValue
  longitude : PValue
  altitude : PValue
  relevant_text : PValue

/-- The near-field-communication payload of a template. -/
structure NFCData where
  message : PValue
  encryption_public_key : PValue
  requires_authentication : PValue

/-- A pass template (`PassTemplate`) as `apple_pass.py` reads it.
`pass_type` is optional so that an absent pass-type is representable
(`structure` is a Lean keyword, so that attribute is named `struct`). -/
structure PassTemplate where
  id : String
  name : String
  description : Option String
  organization_id : String
  pass_type : Option PassType
  struct : PassStructure
  style : PassStyle
  barcode_format : String
  authentication_token : Option String
  web_service_url : Option String
  locations : List Location
  nfc_enabled : Bool
  nfc_data : Option NFCData

/-- Per-instance pass data (`PassData`).  Datetime attributes are carried as
their ISO-8601 rendering (the code only ever calls `.isoformat()` on them);
a datetime object is always truthy, so presence is `Option`. -/
structure PassData where
  template_id : String
  customer_id : String
  serial_number : String
  field_values : List (String × PValue)
  barcode_message : Option String
  barcode_alt_text : Option String
  expiration_date : Option String
  relevant_date : Option String
  voided : Bool

/-- The exceptions the embedded code can raise.  `certificateError` carries
its message (claim C7 is about that message); the wrapper exceptions from
`py_wallet_pass/exceptions.py` are distinguished by constructor. -/
inductive PyErr where
  | attributeError
  | typeError
  | valueError
  | certificateError (msg : String)
  | passCreationError
  | appleWalletError
  | validationError
  deriving DecidableEq

/-! ### Configuration validation (`ApplePass._validate_config`, `__init__`) -/

/-- The required configuration fields, in the order `_validate_config`
checks them, each with its accessor. -/
def requiredAppleFields : List (String × (WalletConfig → Option String)) :=
  [("apple_pass_type_identifier", WalletConfig.apple_pass_type_identifier),
   ("apple_team_identifier", WalletConfig.apple_team_identifier),
   ("apple_organization_name", WalletConfig.apple_organization_name),
   ("apple_certificate_path", WalletConfig.apple_certificate_path),
   ("apple_private_key_path", WalletConfig.apple_private_key_path),
   ("apple_wwdr_certificate_path", WalletConfig.apple_wwdr_certificate_path)]

/-- `missing_fields`: the names of all required fields whose configured
value is falsy. -/
def missingFields (cfg : WalletConfig) : List String :=
  (requiredAppleFields.filter (fun p => !pyTruthy (p.2 cfg))).map Prod.fst

/-- `ApplePass._validate_config`: raise `CertificateError` naming every
missing required field; otherwise check that each certificate/key file
exists (`fileExists` stands for `Path.exists`). -/
def validateConfig (fileExists : String → Bool) (cfg : WalletConfig) :
    Except PyErr Unit :=
  let missing := missingFields cfg
  if !missing.isEmpty then
    .error (.certificateError
      ("Missing required Apple Wallet configuration fields: " ++
        String.intercalate ", " missing))
  else
    match [cfg.apple_certificate_path, cfg.apple_private_key_path,
           cfg.apple_wwdr_certificate_path].find?
        (fun p => !fileExists (p.getD "")) with
    | some p => .error (.certificateError ("File not found: " ++ p.getD ""))
    | none => .ok ()

/-- `ApplePass.__init__`: validate the configuration, then load the three
PEM files.  Loading is delegated to OpenSSL; `certErr`/`keyErr`/`wwdrErr`
give the parse-failure detail for a path, or `none` on success. -/
def applePassInit (fileExists : String → Bool)
    (certErr keyErr wwdrErr : String → Option String) (cfg : WalletConfig) :
    Except PyErr Unit :=
  match validateConfig fileExists cfg with
  | .error e => .error e
  | .ok _ =>
    match certErr (cfg.apple_certificate_path.getD "") with
    | some e => .error (.certificateError ("Failed to load Apple certificate: " ++ e))
    | none =>
      match keyErr (cfg.apple_private_key_path.getD "") with
      | some e => .error (.certificateError ("Failed to load Apple private key: " ++ e))
      | none =>
        match wwdrErr (cfg.apple_wwdr_certificate_path.getD "") with
        | some e =>
          .error (.certificateError ("Failed to load Apple WWDR certificate: " ++ e))
        | none => .ok ()

/-! ### Manifest builder (`ApplePass._create_manifest`) -/

/-- `file_path.name in ('manifest.json', 'signature')`: the entries the
manifest skips. -/
def isManifestEntry (n : String) : Bool :=
  n == "manifest.json" || n == "signature"

/-- One step of `_create_manifest`'s loop over the directory. -/
def manifestStep (m : List (String × String)) (f : String × List Nat) :
    List (String × String) :=
  if isManifestEntry f.1 then m else dinsert m f.1 (sha1Hex f.2)

/-- `ApplePass._create_manifest`: over the files of the pass directory (name
and bytes, in listing order), skip any `manifest.json`/`signature` entry and
record the lowercase hex SHA-1 digest of every other file's bytes. -/
def createManifest (files : List (String × List Nat)) : List (String × String) :=
  files.foldl manifestStep []

/-! ### Pass document generator (`ApplePass._generate_pass_json`)

The Python function builds one dictionary in a straight line; it is embedded
here as a composition of stages, one per source block, each stage inserting
the keys its block inserts (under the block's conditions) in source order. -/

/-- The base dictionary literal (lines 264–282): standard headers, custom
metadata, description and logo text.  `description` is
`template.description or f"{template.name} Pass"`; `logoText` is emitted
unconditionally. -/
def baseDict (cfg : WalletConfig) (pd : PassData) (tpl : PassTemplate)
    (nowC nowU : String) : PDict :=
  [("formatVersion", .int 1),
   ("passTypeIdentifier", optPV cfg.apple_pass_type_identifier),
   ("serialNumber", .str pd.serial_number),
   ("teamIdentifier", optPV cfg.apple_team_identifier),
   ("organizationName", optPV cfg.apple_organization_name),
   ("templateId", .str tpl.id),
   ("customerId", .str pd.customer_id),
   ("organizationId", .str tpl.organization_id),
   ("createdAt", .str nowC),
   ("updatedAt", .str nowU),
   ("description",
     .str (if pyTruthy tpl.description then tpl.description.getD ""
           else tpl.name ++ " Pass")),
   ("logoText", optPV tpl.style.logo_text)]

/-- "Add colors if specified": each color key only when truthy. -/
def addColors (tpl : PassTemplate) (d : PDict) : PDict :=
  let d1 := if pyTruthy tpl.style.background_color then
    dinsert d "backgroundColor" (.str (tpl.style.background_color.getD "")) else d
  let d2 := if pyTruthy tpl.style.foreground_color then
    dinsert d1 "foregroundColor" (.str (tpl.style.foreground_color.getD "")) else d1
  if pyTruthy tpl.style.label_color then
    dinsert d2 "labelColor" (.str (tpl.style.label_color.getD "")) else d2

/-- "Add expiration/relevant date if specified" (ISO-8601 rendering). -/
def addDates (pd : PassData) (d : PDict) : PDict :=
  let d1 := if pd.expiration_date.isSome then
    dinsert d "expirationDate" (.str (pd.expiration_date.getD "")) else d
  if pd.relevant_date.isSome then
    dinsert d1 "relevantDate" (.str (pd.relevant_date.getD "")) else d1

/-- "Add voided status if specified". -/
def addVoided (pd : PassData) (d : PDict) : PDict :=
  if pd.voided then dinsert d "voided" (.bool true) else d

/-- "Add barcode": when an instance barcode message is set, a barcode block
(with the template's configured format) both under `barcodes` (list) and
`barcode` (legacy single entry). -/
def addBarcode (tpl : PassTemplate) (pd : PassData) (d : PDict) : PDict :=
  if pyTruthy pd.barcode_message then
    let bc0 : PDict :=
      [("format", .str tpl.barcode_format),
       ("message", .str (pd.barcode_message.getD "")),
       ("messageEncoding", .str "iso-8859-1")]
    let bc := if pyTruthy pd.barcode_alt_text then
      dinsert bc0 "altText" (.str (pd.barcode_alt_text.getD "")) else bc0
    dinsert (dinsert d "barcodes" (.arr [.obj bc])) "barcode" (.obj bc)
  else d

/-- "Add authentication token for web service". -/
def addAuthToken (tpl : PassTemplate) (d : PDict) : PDict :=
  if pyTruthy tpl.authentication_token then
    dinsert d "authenticationToken" (.str (tpl.authentication_token.getD "")) else d

/-- "Add web service URL if specified":
`template.web_service_url or self.config.web_service_url`. -/
def addWebService (cfg : WalletConfig) (tpl : PassTemplate) (d : PDict) : PDict :=
  let w := if pyTruthy tpl.web_service_url then tpl.web_service_url
           else cfg.web_service_url
  if pyTruthy w then dinsert d "webServiceURL" (.str (w.getD "")) else d

/-- "Add locations if specified". -/
def addLocations (tpl : PassTemplate) (d : PDict) : PDict :=
  if !tpl.locations.isEmpty then
    dinsert d "locations"
      (.arr (tpl.locations.map (fun loc =>
        .obj [("latitude", loc.latitude), ("longitude", loc.longitude),
              ("altitude", loc.altitude), ("relevantText", loc.relevant_text)])))
  else d

/-- "Add NFC if enabled". -/
def addNfc (tpl : PassTemplate) (d : PDict) : PDict :=
  match tpl.nfc_data with
  | some nfc =>
    if tpl.nfc_enabled then
      dinsert d "nfc"
        (.obj [("message", nfc.message),
               ("encryptionPublicKey", nfc.encryption_public_key),
               ("requiresAuthentication", nfc.requires_authentication)])
    else d
  | none => d

/-- Python `str.lower()` character by character (the enumeration values are
ASCII). -/
def pyLower (s : String) : String := String.mk (s.data.map Char.toLower)

/-- Lines 347–349: the document sub-key for the pass style, from the
enumeration value — the `APPLE_` prefix (6 characters) is stripped and the
remainder lower-cased; any other value is used verbatim. -/
def applePassTypeKey (pt : PassType) : String :=
  let v := pt.value
  if v.take 6 = "APPLE_" then pyLower (v.drop 6) else v

/-- One entry of a region's field array (`_add_fields_to_pass` loop body):
the instance's `field_values` override the template default by key; optional
formatting attributes only when truthy. -/
def fieldEntry (pd : PassData) (f : PassField) : PDict :=
  let v := (dget pd.field_values f.key).getD f.value
  let d0 : PDict := [("key", .str f.key), ("label", f.label), ("value", v)]
  let d1 := if pyTruthy f.change_message then
    dinsert d0 "changeMessage" (.str (f.change_message.getD "")) else d0
  let d2 := if pyTruthy f.text_alignment then
    dinsert d1 "textAlignment" (.str (f.text_alignment.getD "")) else d1
  let d3 := if pyTruthy f.date_style then
    dinsert d2 "dateStyle" (.str (f.date_style.getD "")) else d2
  let d4 := if pyTruthy f.time_style then
    dinsert d3 "timeStyle" (.str (f.time_style.getD "")) else d3
  let d5 := if f.is_relative then dinsert d4 "isRelative" (.bool f.is_relative) else d4
  let d6 := if pyTruthy f.currency_code then
    dinsert d5 "currencyCode" (.str (f.currency_code.getD "")) else d5
  if pyTruthy f.number_format then
    dinsert d6 "numberFormat" (.str (f.number_format.getD "")) else d6

/-- `ApplePass._add_fields_to_pass`: does nothing for an empty field list,
otherwise stores the region's field array (template order). -/
def addFieldsToPass (d : PDict) (fieldType : String) (fields : List PassField)
    (pd : PassData) : PDict :=
  if fields.isEmpty then d
  else dinsert d fieldType (.arr (fields.map (fun f => .obj (fieldEntry pd f))))

/-- The pass-style sub-dictionary: the five regions added in source order. -/
def regionDict (tpl : PassTemplate) (pd : PassData) : PDict :=
  addFieldsToPass
    (addFieldsToPass
      (addFieldsToPass
        (addFieldsToPass
          (addFieldsToPass [] "headerFields" tpl.struct.header_fields pd)
          "primaryFields" tpl.struct.primary_fields pd)
        "secondaryFields" tpl.struct.secondary_fields pd)
      "auxiliaryFields" tpl.struct.auxiliary_fields pd)
    "backFields" tpl.struct.back_fields pd

/-- `ApplePass._generate_pass_json`: the full document.  An absent pass-type
surfaces as the `AttributeError` that `template.pass_type.value` raises in
Python; nothing else in the function can fail.  `nowC`/`nowU` are the two
`datetime.now().isoformat()` reads. -/
def generatePassJson (cfg : WalletConfig) (pd : PassData) (tpl : PassTemplate)
    (nowC nowU : String) : Except PyErr PDict :=
  let d := addNfc tpl (addLocations tpl (addWebService cfg tpl
    (addAuthToken tpl (addBarcode tpl pd (addVoided pd
      (addDates pd (addColors tpl (baseDict cfg pd tpl nowC nowU))))))))
  match tpl.pass_type with
  | none => .error .attributeError
  | some pt => .ok (dinsert d (applePassTypeKey pt) (.obj (regionDict tpl pd)))

/-! ### Stored-pass state (`_store_pass_data`, `_retrieve_pass_data`,
`create_pass`, `get_pass`, `void_pass`) -/

/-- The provider's pass store (`storage_path/apple/passes/{pass_id}.json`):
stored document per pass id. -/
abbrev Store := List (String × PDict)

/-- `ApplePass._store_pass_data`: write (or overwrite) the stored document
for a pass id. -/
def storePassData (store : Store) (passId : String) (pj : PDict) : Store :=
  dinsert store passId pj

/-- `ApplePass._retrieve_pass_data`: the stored document, if present. -/
def retrievePassData (store : Store) (passId : String) : Option PDict :=
  dget store passId

/-- `ApplePass.create_pass`: generate the document, store it under
`"{apple_pass_type_identifier}.{serial_number}"`, and return the new store
and the pass id; any exception is wrapped into `PassCreationError`.  (The
returned `PassResponse` metadata — random authentication token, wall-clock
timestamps — is not modelled.) -/
def createPass (cfg : WalletConfig) (store : Store) (pd : PassData)
    (tpl : PassTemplate) (nowC nowU : String) : Except PyErr (Store × String) :=
  match generatePassJson cfg pd tpl nowC nowU with
  | .error _ => .error .passCreationError
  | .ok pj =>
    let passId := cfg.apple_pass_type_identifier.getD "None" ++ "." ++ pd.serial_number
    .ok (storePassData store passId pj, passId)

/-- The metadata `get_pass` extracts from a stored document. -/
structure PassResponseM where
  id : String
  templateId : PValue
  customerId : PValue
  serialNumber : Option PValue
  authenticationToken : PValue
  organizationId : PValue
  voided : PValue
  createdAt : String
  updatedAt : String

/-- `ApplePass.get_pass`: read the stored document and extract its metadata;
`parseIso` stands for `datetime.fromisoformat` (`none` = `ValueError`), and
`now` for `datetime.now().isoformat()`, the default when a timestamp key is
absent.  Any exception is wrapped into `AppleWalletError`. -/
def getPass (parseIso : String → Option String) (now : String) (store : Store)
    (passId : String) : Except PyErr PassResponseM :=
  match retrievePassData store passId with
  | none => .error .appleWalletError
  | some pj =>
    match (dget pj "createdAt").getD (.str now),
          (dget pj "updatedAt").getD (.str now) with
    | .str cs, .str us =>
      match parseIso cs, parseIso us with
      | some c, some u =>
        .ok { id := passId
              templateId := (dget pj "templateId").getD (.str "")
              customerId := (dget pj "customerId").getD (.str "")
              serialNumber := dget pj "serialNumber"
              authenticationToken := (dget pj "authenticationToken").getD (.str "")
              organizationId := (dget pj "organizationId").getD (.str "")
              voided := (dget pj "voided").getD (.bool false)
              createdAt := c
              updatedAt := u }
      | _, _ => .error .appleWalletError
    | _, _ => .error .appleWalletError

/-- `ApplePass.void_pass`: fetch the pass, set `voided` to `True` in the
stored document, store it back, and return the updated store and response
(`now2` is the `updated_at := datetime.now()` read).  Any exception is
wrapped into `AppleWalletError`. -/
def voidPass (parseIso : String → Option String) (now now2 : String)
    (store : Store) (passId : String) : Except PyErr (Store × PassResponseM) :=
  match getPass parseIso now store passId with
  | .error _ => .error .appleWalletError
  | .ok resp =>
    match retrievePassData store passId with
    | none => .error .appleWalletError
    | some pj =>
      let pj2 := dinsert pj "voided" (.bool true)
      .ok (storePassData store passId pj2,
           { resp with voided := .bool true, updatedAt := now2 })

/-! ### Pipeline (`ApplePass.generate_pass_file`)

The temporary pass directory is the list of written files in creation
order; zipping writes every file of the directory as a top-level entry under
its own name.  Serialization (`json.dump`) and PKCS#7 signing (OpenSSL) are
external collaborators, passed in as functions. -/

/-- `ApplePass._add_pass_images`: a placeholder in the source — it writes no
files (it only logs a warning). -/
def addPassImages (files : List (String × List Nat)) (_tpl : PassTemplate) :
    List (String × List Nat) :=
  files

/-- `ApplePass.generate_pass_file`: retrieve the stored document, write
`pass.json`, add images, write the manifest, sign it, write `signature`, and
return the archive — one top-level entry per file of the directory.
`dumpDoc`/`dumpMan` are `json.dump` for the document and the manifest;
`signer` is `_sign_manifest` applied to the manifest mapping. -/
def generatePassFile (dumpDoc : PDict → List Nat)
    (dumpMan : List (String × String) → List Nat)
    (signer : List (String × String) → List Nat)
    (store : Store) (passId : String) (tpl : PassTemplate) :
    Except PyErr (List (String × List Nat)) :=
  match retrievePassData store passId with
  | none => .error .appleWalletError
  | some pj =>
    let files0 : List (String × List Nat) := [("pass.json", dumpDoc pj)]
    let files1 := addPassImages files0 tpl
    let manifest := createManifest files1
    let files2 := dinsert files1 "manifest.json" (dumpMan manifest)
    let files3 := dinsert files2 "signature" (signer manifest)
    .ok files3

/-! ### Lookup lemmas for the generator stages -/

theorem dget_dinsert_ne {α : Type} {k k' : String} (h : k ≠ k')
    (d : List (String × α)) (v : α) : dget (dinsert d k v) k' = dget d k' := by
  rw [dget_dinsert, if_neg h]

theorem dget_addColors_ne (tpl : PassTemplate) (d : PDict) (k : String)
    (h1 : k ≠ "backgroundColor") (h2 : k ≠ "foregroundColor")
    (h3 : k ≠ "labelColor") : dget (addColors tpl d) k = dget d k := by
  simp only [addColors]
  split_ifs <;>
    simp only [dget_dinsert_ne (Ne.symm h1), dget_dinsert_ne (Ne.symm h2),
      dget_dinsert_ne (Ne.symm h3)]

theorem dget_addDates_ne (pd : PassData) (d : PDict) (k : String)
    (h1 : k ≠ "expirationDate") (h2 : k ≠ "relevantDate") :
    dget (addDates pd d) k = dget d k := by
  simp only [addDates]
  split_ifs <;>
    simp only [dget_dinsert_ne (Ne.symm h1), dget_dinsert_ne (Ne.symm h2)]

theorem dget_addVoided_ne (pd : PassData) (d : PDict) (k : String)
    (h1 : k ≠ "voided") : dget (addVoided pd d) k = dget d k := by
  simp only [addVoided]
  split_ifs <;> simp only [dget_dinsert_ne (Ne.symm h1)]

theorem dget_addBarcode_ne (tpl : PassTemplate) (pd : PassData) (d : PDict)
    (k : String) (h1 : k ≠ "barcodes") (h2 : k ≠ "barcode") :
    dget (addBarcode tpl pd d) k = dget d k := by
  simp only [addBarcode]
  split_ifs <;>
    simp only [dget_dinsert_ne (Ne.symm h1), dget_dinsert_ne (Ne.symm h2)]

theorem dget_addAuthToken_ne (tpl : PassTemplate) (d : PDict) (k : String)
    (h1 : k ≠ "authenticationToken") : dget (addAuthToken tpl d) k = dget d k := by
  simp only [addAuthToken]
  split_ifs <;> simp only [dget_dinsert_ne (Ne.symm h1)]

theorem dget_addWebService_ne (cfg : WalletConfig) (tpl : PassTemplate)
    (d : PDict) (k : String) (h1 : k ≠ "webServiceURL") :
    dget (addWebService cfg tpl d) k = dget d k := by
  simp only [addWebService]
  split_ifs <;> simp only [dget_dinsert_ne (Ne.symm h1)]

theorem dget_addLocations_ne (tpl : PassTemplate) (d : PDict) (k : String)
    (h1 : k ≠ "locations") : dget (addLocations tpl d) k = dget d k := by
  simp only [addLocations]
  split_ifs <;> simp only [dget_dinsert_ne (Ne.symm h1)]

theorem dget_addNfc_ne (tpl : PassTemplate) (d : PDict) (k : String)
    (h1 : k ≠ "nfc") : dget (addNfc tpl d) k = dget d k := by
  simp only [addNfc]
  cases tpl.nfc_data with
  | none => rfl
  | some nfc =>
    split_ifs <;> simp only [dget_dinsert_ne (Ne.symm h1)]

/-- The fixed keys the generator can insert besides the pass-type sub-key. -/
def stdDocKeys : List String :=
  ["formatVersion", "passTypeIdentifier", "serialNumber", "teamIdentifier",
   "organizationName", "templateId", "customerId", "organizationId",
   "createdAt", "updatedAt", "description", "logoText", "backgroundColor",
   "foregroundColor", "labelColor", "expirationDate", "relevantDate",
   "voided", "barcodes", "barcode", "authenticationToken", "webServiceURL",
   "locations", "nfc"]

/-- No pass-type sub-key collides with a fixed document key. -/
theorem applePassTypeKey_not_std (pt : PassType) :
    applePassTypeKey pt ∉ stdDocKeys := by
  cases pt <;> decide

theorem applePassTypeKey_ne_of_std (pt : PassType) {k : String}
    (h : k ∈ stdDocKeys) : applePassTypeKey pt ≠ k := by
  intro he
  exact applePassTypeKey_not_std pt (he ▸ h)

/-! ### Manifest lemmas -/

theorem dinsert_ne_nil {α : Type} (d : List (String × α)) (k : String) (v : α) :
    dinsert d k v ≠ [] := by
  cases d with
  | nil => simp [dinsert]
  | cons p rest =>
    simp only [dinsert]
    split <;> simp

theorem dget_ne_none_iff {α : Type} (d : List (String × α)) (k : String) :
    dget d k ≠ none ↔ k ∈ dkeys d := by
  constructor
  · exact dget_mem_dkeys d k
  · intro hmem
    induction d with
    | nil => simp [dkeys] at hmem
    | cons p rest ih =>
      obtain ⟨k₀, v₀⟩ := p
      by_cases h0 : k₀ = k
      · simp [dget, h0]
      · simp only [dkeys, List.map_cons, List.mem_cons] at hmem
        rcases hmem with h | h
        · exact absurd h.symm h0
        · simp only [dget, if_neg h0]
          exact ih h

theorem dget_eq_none_of_not_mem {α : Type} (d : List (String × α)) (k : String)
    (h : k ∉ dkeys d) : dget d k = none := by
  by_contra hne
  exact h ((dget_ne_none_iff d k).mp hne)

theorem dget_foldl_manifestStep_notmem (files : List (String × List Nat))
    (m : List (String × String)) (n : String)
    (h : n ∉ files.map Prod.fst) :
    dget (files.foldl manifestStep m) n = dget m n := by
  induction files generalizing m with
  | nil => rfl
  | cons f rest ih =>
    simp only [List.map_cons, List.mem_cons, not_or] at h
    obtain ⟨hne, hrest⟩ := h
    simp only [List.foldl_cons]
    rw [ih _ hrest]
    simp only [manifestStep]
    split
    · rfl
    · exact dget_dinsert_ne (fun he => hne he.symm) m _

theorem dget_foldl_manifestStep_excluded (files : List (String × List Nat))
    (m : List (String × String)) (n : String)
    (h : isManifestEntry n = true) :
    dget (files.foldl manifestStep m) n = dget m n := by
  induction files generalizing m with
  | nil => rfl
  | cons f rest ih =>
    simp only [List.foldl_cons]
    rw [ih]
    simp only [manifestStep]
    split
    · rfl
    · refine dget_dinsert_ne (fun he => ?_) m _
      rename_i hf
      rw [he] at hf
      simp [h] at hf

theorem dget_foldl_manifestStep_mem (files : List (String × List Nat))
    (m : List (String × String)) (n : String) (b : List Nat)
    (hnd : (files.map Prod.fst).Nodup) (hmem : (n, b) ∈ files)
    (hex : isManifestEntry n = false) :
    dget (files.foldl manifestStep m) n = some (sha1Hex b) := by
  induction files generalizing m with
  | nil => simp at hmem
  | cons f rest ih =>
    simp only [List.map_cons, List.nodup_cons] at hnd
    obtain ⟨hf, hndr⟩ := hnd
    simp only [List.mem_cons] at hmem
    simp only [List.foldl_cons]
    rcases hmem with heq | hmem
    · subst heq
      rw [dget_foldl_manifestStep_notmem _ _ _ hf]
      simp only [manifestStep, hex]
      simp [dget_dinsert]
    · have hne : f.1 ≠ n := by
        intro he
        exact hf (he ▸ List.mem_map_of_mem Prod.fst hmem)
      exact ih _ hndr hmem

theorem dkeys_foldl_manifestStep (files : List (String × List Nat))
    (m : List (String × String))
    (hnd : (files.map Prod.fst).Nodup)
    (hdisj : ∀ x ∈ files.map Prod.fst, x ∉ dkeys m) :
    dkeys (files.foldl manifestStep m) =
      dkeys m ++ (files.map Prod.fst).filter (fun n => !isManifestEntry n) := by
  induction files generalizing m with
  | nil => simp
  | cons f rest ih =>
    simp only [List.map_cons, List.nodup_cons] at hnd
    obtain ⟨hf, hndr⟩ := hnd
    simp only [List.foldl_cons, List.map_cons, List.filter_cons, manifestStep]
    by_cases hex : isManifestEntry f.1 = true
    · simp only [hex, if_true, Bool.not_true, Bool.false_eq_true, if_false]
      exact ih m hndr (fun x hx => hdisj x (List.mem_cons_of_mem _ hx))
    · have hexf : isManifestEntry f.1 = false := by simpa using hex
      have hfm : f.1 ∉ dkeys m := hdisj f.1 (by simp)
      simp only [hexf, Bool.false_eq_true, if_false, Bool.not_false, if_true]
      rw [ih (dinsert m f.1 (sha1Hex f.2)) hndr]
      · rw [dkeys_dinsert, if_neg hfm]
        simp
      · intro x hx
        rw [dkeys_dinsert, if_neg hfm]
        simp only [List.mem_append, List.mem_singleton, not_or]
        exact ⟨hdisj x (List.mem_cons_of_mem _ hx), fun he => hf (he ▸ hx)⟩

theorem dget_createManifest_eq_of_perm (files files' : List (String × List Nat))
    (hnd : (files.map Prod.fst).Nodup) (hp : files.Perm files') (n : String) :
    dget (createManifest files) n = dget (createManifest files') n := by
  have hnd' : (files'.map Prod.fst).Nodup := ((hp.map Prod.fst).nodup_iff).mp hnd
  by_cases hex : isManifestEntry n = true
  · unfold createManifest
    rw [dget_foldl_manifestStep_excluded _ _ _ hex,
        dget_foldl_manifestStep_excluded _ _ _ hex]
  · have hexf : isManifestEntry n = false := by simpa using hex
    by_cases hmem : n ∈ files.map Prod.fst
    · obtain ⟨p, hpmem, he⟩ := List.mem_map.mp hmem
      obtain ⟨n₀, b⟩ := p
      simp only at he
      subst he
      unfold createManifest
      rw [dget_foldl_manifestStep_mem _ _ _ b hnd hpmem hexf,
          dget_foldl_manifestStep_mem _ _ _ b hnd' (hp.subset hpmem) hexf]
    · have hmem' : n ∉ files'.map Prod.fst := fun h =>
        hmem (((hp.map Prod.fst).mem_iff).mpr h)
      unfold createManifest
      rw [dget_foldl_manifestStep_notmem _ _ _ hmem,
          dget_foldl_manifestStep_notmem _ _ _ hmem']

/-- **C2.** For every input file set (with distinct names, as directory
listings are), the manifest's key list is exactly the input names minus any
pre-existing `manifest.json`/`signature` entry, each key maps to the hex
SHA-1 digest of that file's bytes, and the mapping depends only on the
name→bytes association: re-listing the same files in any order yields an
identical mapping. -/
theorem createManifest_keys_and_digests (files files' : List (String × List Nat))
    (hnd : (files.map Prod.fst).Nodup) (hp : files.Perm files') :
    dkeys (createManifest files) =
      (files.map Prod.fst).filter (fun n => !isManifestEntry n) ∧
    (∀ n b, (n, b) ∈ files → isManifestEntry n = false →
      dget (createManifest files) n = some (sha1Hex b)) ∧
    (∀ n, dget (createManifest files) n = dget (createManifest files') n) := by
  refine ⟨?_, ?_, ?_⟩
  · simpa using dkeys_foldl_manifestStep files [] hnd (by simp [dkeys])
  · intro n b hmem hex
    exact dget_foldl_manifestStep_mem files [] n b hnd hmem hex
  · exact dget_createManifest_eq_of_perm files files' hnd hp

/-- Witness for C2 on a concrete three-file directory and a permutation of
it. -/
theorem createManifest_keys_and_digests_witness :
    dkeys (createManifest
        [("pass.json", [1, 2]), ("manifest.json", [3]), ("icon.png", [])]) =
      ["pass.json", "icon.png"] ∧
    dget (createManifest
        [("pass.json", [1, 2]), ("manifest.json", [3]), ("icon.png", [])])
      "pass.json" = some (sha1Hex [1, 2]) ∧
    (∀ n, dget (createManifest
        [("pass.json", [1, 2]), ("manifest.json", [3]), ("icon.png", [])]) n =
      dget (createManifest
        [("icon.png", []), ("pass.json", [1, 2]), ("manifest.json", [3])]) n) := by
  have h := createManifest_keys_and_digests
    [("pass.json", [1, 2]), ("manifest.json", [3]), ("icon.png", [])]
    [("icon.png", []), ("pass.json", [1, 2]), ("manifest.json", [3])]
    (by decide) (by decide)
  exact ⟨h.1.trans (by decide), h.2.1 "pass.json" [1, 2] (by decide) (by decide),
    h.2.2⟩

theorem foldl_manifestStep_eq_nil_iff (files : List (String × List Nat))
    (m : List (String × String)) :
    files.foldl manifestStep m = [] ↔
      m = [] ∧ ∀ f ∈ files, isManifestEntry f.1 = true := by
  induction files generalizing m with
  | nil => simp
  | cons f rest ih =>
    simp only [List.foldl_cons, manifestStep]
    by_cases hex : isManifestEntry f.1 = true
    · rw [if_pos hex, ih]
      simp [hex]
    · rw [if_neg hex, ih]
      have hne := dinsert_ne_nil m f.1 (sha1Hex f.2)
      simp only [hne, false_and, false_iff, not_and]
      intro _ hall
      exact hex (hall f (by simp))

/-- **C6 counterexample.** `_create_manifest` over an empty file set does
not raise anything — it is total and returns the empty mapping (there is no
`PackagingError` anywhere in the code base). -/
theorem createManifest_empty_counterexample : createManifest [] = [] := rfl

/-- **C6 amended.** Building the manifest over an empty input file set
returns an empty mapping rather than failing; in general the result is
empty exactly when every input entry is a skipped `manifest.json`/`signature`
entry. -/
theorem createManifest_eq_nil_iff (files : List (String × List Nat)) :
    createManifest files = [] ↔ ∀ f ∈ files, isManifestEntry f.1 = true := by
  unfold createManifest
  rw [foldl_manifestStep_eq_nil_iff]
  simp

/-- **C7.** Whenever one or more required Apple configuration fields are
missing (falsy), provider construction fails with a `CertificateError`
whose message lists every missing required field — the full
comma-separated `missingFields` list, not just the first. -/
theorem applePassInit_lists_all_missing (fileExists : String → Bool)
    (certErr keyErr wwdrErr : String → Option String) (cfg : WalletConfig)
    (h : missingFields cfg ≠ []) :
    applePassInit fileExists certErr keyErr wwdrErr cfg =
      .error (.certificateError
        ("Missing required Apple Wallet configuration fields: " ++
          String.intercalate ", " (missingFields cfg))) := by
  have hne : (missingFields cfg).isEmpty = false := by
    cases hm : missingFields cfg with
    | nil => exact absurd hm h
    | cons a l => rfl
  unfold applePassInit validateConfig
  simp [hne]

/-- Witness for C7: a configuration missing both the team identifier
(`None`) and the WWDR certificate path (empty string) is rejected with both
fields named in the message. -/
theorem applePassInit_lists_all_missing_witness :
    applePassInit (fun _ => true) (fun _ => none) (fun _ => none) (fun _ => none)
      { apple_pass_type_identifier := some "pass.com.example"
        apple_team_identifier := none
        apple_organization_name := some "Org"
        apple_certificate_path := some "/tmp/cert.pem"
        apple_private_key_path := some "/tmp/key.pem"
        apple_wwdr_certificate_path := some ""
        web_service_url := none } =
      .error (.certificateError
        ("Missing required Apple Wallet configuration fields: " ++
          "apple_team_identifier, apple_wwdr_certificate_path")) := by
  have h := applePassInit_lists_all_missing (fun _ => true) (fun _ => none)
    (fun _ => none) (fun _ => none)
    { apple_pass_type_identifier := some "pass.com.example"
      apple_team_identifier := none
      apple_organization_name := some "Org"
      apple_certificate_path := some "/tmp/cert.pem"
      apple_private_key_path := some "/tmp/key.pem"
      apple_wwdr_certificate_path := some ""
      web_service_url := none }
    (by decide)
  exact h.trans rfl

/-! ### Sample data for concrete witnesses and counterexamples -/

/-- A template structure with no fields. -/
def emptyStructure : PassStructure :=
  { header_fields := [], primary_fields := [], secondary_fields := []
    auxiliary_fields := [], back_fields := [] }

/-- A style with nothing set. -/
def emptyStyle : PassStyle :=
  { background_color := none, foreground_color := none, label_color := none
    logo_text := none }

/-- A fully populated configuration. -/
def sampleCfg : WalletConfig :=
  { apple_pass_type_identifier := some "pass.com.example"
    apple_team_identifier := some "TEAM123"
    apple_organization_name := some "Org"
    apple_certificate_path := some "/tmp/cert.pem"
    apple_private_key_path := some "/tmp/key.pem"
    apple_wwdr_certificate_path := some "/tmp/wwdr.pem"
    web_service_url := none }

/-- Minimal instance data. -/
def samplePd : PassData :=
  { template_id := "tpl-1", customer_id := "cust-1", serial_number := "sn-1"
    field_values := [], barcode_message := none, barcode_alt_text := none
    expiration_date := none, relevant_date := none, voided := false }

/-- A minimal template with the given pass type. -/
def sampleTemplate (pt : Option PassType) : PassTemplate :=
  { id := "tpl-1", name := "Event", description := some "Event ticket"
    organization_id := "org-1", pass_type := pt, struct := emptyStructure
    style := emptyStyle, barcode_format := "PKBarcodeFormatQR"
    authentication_token := none, web_service_url := none, locations := []
    nfc_enabled := false, nfc_data := none }

/-- The document of a generation result (`[]` for an error), for concrete
evaluations. -/
def resultDoc (r : Except PyErr PDict) : PDict :=
  match r with
  | .ok d => d
  | .error _ => []

/-! ### Claim C10: `void_pass` frame property -/

/-- **C10.** A successful `void_pass` rewrites the stored document with
`voided` set to `true`, leaves every other key of that document unchanged,
and leaves every other stored pass unchanged. -/
theorem voidPass_frame (parseIso : String → Option String) (now now2 : String)
    (store : Store) (passId : String) (doc : PDict) (store' : Store)
    (resp : PassResponseM)
    (hdoc : retrievePassData store passId = some doc)
    (hok : voidPass parseIso now now2 store passId = .ok (store', resp)) :
    dget store' passId = some (dinsert doc "voided" (.bool true)) ∧
    dget (dinsert doc "voided" (.bool true)) "voided" = some (.bool true) ∧
    (∀ k, k ≠ "voided" →
      dget (dinsert doc "voided" (.bool true)) k = dget doc k) ∧
    (∀ pid, pid ≠ passId → dget store' pid = dget store pid) := by
  unfold voidPass at hok
  split at hok
  · exact absurd hok (by simp)
  · split at hok
    · exact absurd hok (by simp)
    · rename_i pj hpj
      rw [hdoc] at hpj
      injection hpj with hpj
      subst hpj
      simp only [Except.ok.injEq, Prod.mk.injEq] at hok
      obtain ⟨hstore, _⟩ := hok
      subst hstore
      refine ⟨?_, ?_, ?_, ?_⟩
      · unfold storePassData
        rw [dget_dinsert, if_pos rfl]
      · rw [dget_dinsert, if_pos rfl]
      · intro k hk
        exact dget_dinsert_ne (fun he => hk he.symm) doc _
      · intro pid hpid
        unfold storePassData
        exact dget_dinsert_ne (fun he => hpid he.symm) store _

/-- Witness for C10 on a concrete one-pass store. -/
theorem voidPass_frame_witness :
    dget [("p1", [("serialNumber", PValue.str "sn"), ("voided", PValue.bool true)])]
        "p1" =
      some (dinsert [("serialNumber", PValue.str "sn"), ("voided", PValue.bool false)]
        "voided" (.bool true)) ∧
    dget (dinsert [("serialNumber", PValue.str "sn"), ("voided", PValue.bool false)]
        "voided" (.bool true)) "voided" = some (.bool true) ∧
    (∀ k, k ≠ "voided" →
      dget (dinsert [("serialNumber", PValue.str "sn"), ("voided", PValue.bool false)]
        "voided" (.bool true)) k =
      dget [("serialNumber", PValue.str "sn"), ("voided", PValue.bool false)] k) ∧
    (∀ pid, pid ≠ "p1" →
      dget [("p1", [("serialNumber", PValue.str "sn"), ("voided", PValue.bool true)])]
          pid =
        dget [("p1", [("serialNumber", PValue.str "sn"), ("voided", PValue.bool false)])]
          pid) :=
  voidPass_frame (fun s => some s) "2024-01-01T00:00:00" "2024-01-02T00:00:00"
    [("p1", [("serialNumber", PValue.str "sn"), ("voided", PValue.bool false)])]
    "p1" [("serialNumber", PValue.str "sn"), ("voided", PValue.bool false)]
    [("p1", [("serialNumber", PValue.str "sn"), ("voided", PValue.bool true)])]
    { id := "p1", templateId := .str "", customerId := .str ""
      serialNumber := some (.str "sn"), authenticationToken := .str ""
      organizationId := .str "", voided := .bool true
      createdAt := "2024-01-01T00:00:00", updatedAt := "2024-01-02T00:00:00" }
    rfl rfl

/-! ### Claim C5: archive entries -/

/-- **C5.** A successful `generate_pass_file` produces an archive whose
top-level entries are exactly the document (`pass.json`), the manifest
(`manifest.json`) and the detached `signature` — plus each static asset by
its own name, of which the source's placeholder `_add_pass_images` produces
none — and nothing else; the document entry holds the serialized stored
document. -/
theorem generatePassFile_entries (dumpDoc : PDict → List Nat)
    (dumpMan : List (String × String) → List Nat)
    (signer : List (String × String) → List Nat)
    (store : Store) (passId : String) (tpl : PassTemplate) (pj : PDict)
    (h : retrievePassData store passId = some pj) :
    ∃ archive,
      generatePassFile dumpDoc dumpMan signer store passId tpl = .ok archive ∧
      dkeys archive = ["pass.json", "manifest.json", "signature"] ∧
      dget archive "pass.json" = some (dumpDoc pj) := by
  unfold generatePassFile
  rw [h]
  exact ⟨_, rfl, rfl, rfl⟩

/-- Witness for C5 on a concrete store and collaborators. -/
theorem generatePassFile_entries_witness :
    ∃ archive,
      generatePassFile (fun _ => [0]) (fun _ => [1]) (fun _ => [2])
        [("p1", [("k", PValue.str "v")])] "p1" (sampleTemplate none) =
        .ok archive ∧
      dkeys archive = ["pass.json", "manifest.json", "signature"] ∧
      dget archive "pass.json" = some ((fun _ => [0]) [("k", PValue.str "v")]) :=
  generatePassFile_entries (fun _ => [0]) (fun _ => [1]) (fun _ => [2])
    [("p1", [("k", PValue.str "v")])] "p1" (sampleTemplate none)
    [("k", PValue.str "v")] rfl

/-! ### Claim C8: visual style attributes -/

theorem dget_docBody (cfg : WalletConfig) (pd : PassData) (tpl : PassTemplate)
    (nowC nowU : String) (k : String)
    (h1 : k ≠ "expirationDate") (h2 : k ≠ "relevantDate") (h3 : k ≠ "voided")
    (h4 : k ≠ "barcodes") (h5 : k ≠ "barcode") (h6 : k ≠ "authenticationToken")
    (h7 : k ≠ "webServiceURL") (h8 : k ≠ "locations") (h9 : k ≠ "nfc") :
    dget (addNfc tpl (addLocations tpl (addWebService cfg tpl (addAuthToken tpl
        (addBarcode tpl pd (addVoided pd (addDates pd (addColors tpl
          (baseDict cfg pd tpl nowC nowU))))))))) k =
      dget (addColors tpl (baseDict cfg pd tpl nowC nowU)) k := by
  rw [dget_addNfc_ne _ _ _ h9, dget_addLocations_ne _ _ _ h8,
      dget_addWebService_ne _ _ _ _ h7, dget_addAuthToken_ne _ _ _ h6,
      dget_addBarcode_ne _ _ _ _ h4 h5, dget_addVoided_ne _ _ _ h3,
      dget_addDates_ne _ _ _ h1 h2]

theorem dget_addColors_bg (tpl : PassTemplate) (d : PDict) :
    dget (addColors tpl d) "backgroundColor" =
      if pyTruthy tpl.style.background_color then
        some (.str (tpl.style.background_color.getD ""))
      else dget d "backgroundColor" := by
  simp only [addColors]
  split_ifs <;> simp [dget_dinsert]

theorem dget_addColors_fg (tpl : PassTemplate) (d : PDict) :
    dget (addColors tpl d) "foregroundColor" =
      if pyTruthy tpl.style.foreground_color then
        some (.str (tpl.style.foreground_color.getD ""))
      else dget d "foregroundColor" := by
  simp only [addColors]
  split_ifs <;> simp [dget_dinsert]

theorem dget_addColors_label (tpl : PassTemplate) (d : PDict) :
    dget (addColors tpl d) "labelColor" =
      if pyTruthy tpl.style.label_color then
        some (.str (tpl.style.label_color.getD ""))
      else dget d "labelColor" := by
  simp only [addColors]
  split_ifs <;> simp [dget_dinsert]

/-- **C8 counterexample.** A template whose logo text is unset still gets a
`logoText` key — emitted as `null` — in the generated document, so the
"appears iff non-empty" contract does not hold for logo text. -/
theorem logoText_emitted_when_unset :
    pyTruthy (sampleTemplate (some .APPLE_GENERIC)).style.logo_text = false ∧
    dget (resultDoc (generatePassJson sampleCfg samplePd
        (sampleTemplate (some .APPLE_GENERIC)) "T1" "T2")) "logoText" =
      some PValue.null :=
  ⟨rfl, rfl⟩

/-- **C8 amended.** The three color attributes are emitted iff non-empty
(omitted otherwise, never as `null`), but `logoText` is always emitted —
as `null`/empty when unset. -/
theorem style_attribute_emission (cfg : WalletConfig) (pd : PassData)
    (tpl : PassTemplate) (nowC nowU : String) (pt : PassType)
    (h : tpl.pass_type = some pt) :
    ∃ doc, generatePassJson cfg pd tpl nowC nowU = .ok doc ∧
      dget doc "backgroundColor" =
        (if pyTruthy tpl.style.background_color then
          some (.str (tpl.style.background_color.getD "")) else none) ∧
      dget doc "foregroundColor" =
        (if pyTruthy tpl.style.foreground_color then
          some (.str (tpl.style.foreground_color.getD "")) else none) ∧
      dget doc "labelColor" =
        (if pyTruthy tpl.style.label_color then
          some (.str (tpl.style.label_color.getD "")) else none) ∧
      dget doc "logoText" = some (optPV tpl.style.logo_text) := by
  unfold generatePassJson
  rw [h]
  refine ⟨_, rfl, ?_, ?_, ?_, ?_⟩
  · rw [dget_dinsert_ne (applePassTypeKey_ne_of_std pt (by decide)),
        dget_docBody _ _ _ _ _ _ (by decide) (by decide) (by decide) (by decide)
          (by decide) (by decide) (by decide) (by decide) (by decide),
        dget_addColors_bg]
    simp only [show dget (baseDict cfg pd tpl nowC nowU) "backgroundColor" = none
      from rfl]
  · rw [dget_dinsert_ne (applePassTypeKey_ne_of_std pt (by decide)),
        dget_docBody _ _ _ _ _ _ (by decide) (by decide) (by decide) (by decide)
          (by decide) (by decide) (by decide) (by decide) (by decide),
        dget_addColors_fg]
    simp only [show dget (baseDict cfg pd tpl nowC nowU) "foregroundColor" = none
      from rfl]
  · rw [dget_dinsert_ne (applePassTypeKey_ne_of_std pt (by decide)),
        dget_docBody _ _ _ _ _ _ (by decide) (by decide) (by decide) (by decide)
          (by decide) (by decide) (by decide) (by decide) (by decide),
        dget_addColors_label]
    simp only [show dget (baseDict cfg pd tpl nowC nowU) "labelColor" = none
      from rfl]
  · rw [dget_dinsert_ne (applePassTypeKey_ne_of_std pt (by decide)),
        dget_docBody _ _ _ _ _ _ (by decide) (by decide) (by decide) (by decide)
          (by decide) (by decide) (by decide) (by decide) (by decide),
        dget_addColors_ne _ _ _ (by decide) (by decide) (by decide)]
    rfl

/-- A template with a background color and logo text set, an empty label
color, and no foreground color. -/
def styledTemplate : PassTemplate :=
  { sampleTemplate (some .APPLE_GENERIC) with
    style := { background_color := some "#FFFFFF", foreground_color := none
               label_color := some "", logo_text := some "Logo" } }

/-- Witness for C8 (amended) on a concrete template. -/
theorem style_attribute_emission_witness :
    ∃ doc, generatePassJson sampleCfg samplePd styledTemplate "T1" "T2" = .ok doc ∧
      dget doc "backgroundColor" = some (.str "#FFFFFF") ∧
      dget doc "foregroundColor" = none ∧
      dget doc "labelColor" = none ∧
      dget doc "logoText" = some (.str "Logo") :=
  style_attribute_emission sampleCfg samplePd styledTemplate "T1" "T2"
    .APPLE_GENERIC rfl

/-! ### Claim C4: no validation of required template fields -/

/-- **C4 counterexample.** With the pass-type absent, `create_pass` fails
with `PassCreationError` (wrapping the underlying attribute error), not
`ValidationError`; and with an absent (empty) organization id the document
is generated without any error at all. -/
theorem missing_template_fields_no_validationError :
    createPass sampleCfg [] samplePd (sampleTemplate none) "T1" "T2" =
      .error .passCreationError ∧
    PyErr.passCreationError ≠ PyErr.validationError ∧
    dget (resultDoc (generatePassJson sampleCfg samplePd
        { sampleTemplate (some .APPLE_GENERIC) with organization_id := "", id := "" }
        "T1" "T2")) "organizationId" = some (.str "") :=
  ⟨rfl, by decide, rfl⟩

/-- **C4 amended.** Document generation does not validate required template
fields: with any template whose pass-type is absent, `create_pass` fails
with `PassCreationError` (never `ValidationError`) and stores nothing, while
an absent (empty) id or organization id is accepted silently — generation
succeeds and embeds the empty values verbatim. -/
theorem template_field_validation_behaviour :
    (∀ (cfg : WalletConfig) (store : Store) (pd : PassData) (tpl : PassTemplate)
        (nowC nowU : String), tpl.pass_type = none →
      createPass cfg store pd tpl nowC nowU = .error .passCreationError) ∧
    (∀ (cfg : WalletConfig) (pd : PassData) (tpl : PassTemplate)
        (nowC nowU : String) (pt : PassType), tpl.pass_type = some pt →
      ∃ doc, generatePassJson cfg pd tpl nowC nowU = .ok doc ∧
        dget doc "organizationId" = some (.str tpl.organization_id) ∧
        dget doc "templateId" = some (.str tpl.id)) := by
  constructor
  · intro cfg store pd tpl nowC nowU h
    unfold createPass generatePassJson
    rw [h]
  · intro cfg pd tpl nowC nowU pt h
    unfold generatePassJson
    rw [h]
    refine ⟨_, rfl, ?_, ?_⟩
    · rw [dget_dinsert_ne (applePassTypeKey_ne_of_std pt (by decide)),
          dget_docBody _ _ _ _ _ _ (by decide) (by decide) (by decide) (by decide)
            (by decide) (by decide) (by decide) (by decide) (by decide),
          dget_addColors_ne _ _ _ (by decide) (by decide) (by decide)]
      rfl
    · rw [dget_dinsert_ne (applePassTypeKey_ne_of_std pt (by decide)),
          dget_docBody _ _ _ _ _ _ (by decide) (by decide) (by decide) (by decide)
            (by decide) (by decide) (by decide) (by decide) (by decide),
          dget_addColors_ne _ _ _ (by decide) (by decide) (by decide)]
      rfl

/-- Witness for C4 (amended) at concrete inputs. -/
theorem template_field_validation_behaviour_witness :
    createPass sampleCfg [] samplePd (sampleTemplate none) "T1" "T2" =
      .error .passCreationError ∧
    ∃ doc, generatePassJson sampleCfg samplePd
        { sampleTemplate (some .APPLE_GENERIC) with organization_id := "", id := "" }
        "T1" "T2" = .ok doc ∧
      dget doc "organizationId" = some (.str "") ∧
      dget doc "templateId" = some (.str "") :=
  ⟨template_field_validation_behaviour.1 sampleCfg [] samplePd
      (sampleTemplate none) "T1" "T2" rfl,
    template_field_validation_behaviour.2 sampleCfg samplePd
      { sampleTemplate (some .APPLE_GENERIC) with organization_id := "", id := "" }
      "T1" "T2" .APPLE_GENERIC rfl⟩

/-! ### Claim C9: the pass-type document sub-key -/

/-- Modelled from the spec: the sub-key derivation as the specification
words it — "derived deterministically from the pass-type enumeration (strip
the platform-prefix, lower-case the remainder)" — for comparison with the
code's `applePassTypeKey`. -/
def specPassTypeKey (pt : PassType) : String :=
  let v := pt.value
  pyLower (if v.take 6 = "APPLE_" then v.drop 6
           else if v.take 7 = "GOOGLE_" then v.drop 7
           else if v.take 8 = "SAMSUNG_" then v.drop 8
           else v)

theorem dkeys_nodup_addColors (tpl : PassTemplate) (d : PDict)
    (h : (dkeys d).Nodup) : (dkeys (addColors tpl d)).Nodup := by
  simp only [addColors]
  split_ifs <;> (repeat apply dkeys_nodup_dinsert) <;> exact h

theorem dkeys_nodup_addDates (pd : PassData) (d : PDict)
    (h : (dkeys d).Nodup) : (dkeys (addDates pd d)).Nodup := by
  simp only [addDates]
  split_ifs <;> (repeat apply dkeys_nodup_dinsert) <;> exact h

theorem dkeys_nodup_addVoided (pd : PassData) (d : PDict)
    (h : (dkeys d).Nodup) : (dkeys (addVoided pd d)).Nodup := by
  simp only [addVoided]
  split_ifs <;> (repeat apply dkeys_nodup_dinsert) <;> exact h

theorem dkeys_nodup_addBarcode (tpl : PassTemplate) (pd : PassData) (d : PDict)
    (h : (dkeys d).Nodup) : (dkeys (addBarcode tpl pd d)).Nodup := by
  simp only [addBarcode]
  split_ifs <;> (repeat apply dkeys_nodup_dinsert) <;> exact h

theorem dkeys_nodup_addAuthToken (tpl : PassTemplate) (d : PDict)
    (h : (dkeys d).Nodup) : (dkeys (addAuthToken tpl d)).Nodup := by
  simp only [addAuthToken]
  split_ifs <;> (repeat apply dkeys_nodup_dinsert) <;> exact h

theorem dkeys_nodup_addWebService (cfg : WalletConfig) (tpl : PassTemplate)
    (d : PDict) (h : (dkeys d).Nodup) : (dkeys (addWebService cfg tpl d)).Nodup := by
  simp only [addWebService]
  split_ifs <;> (repeat apply dkeys_nodup_dinsert) <;> exact h

theorem dkeys_nodup_addLocations (tpl : PassTemplate) (d : PDict)
    (h : (dkeys d).Nodup) : (dkeys (addLocations tpl d)).Nodup := by
  simp only [addLocations]
  split_ifs <;> (repeat apply dkeys_nodup_dinsert) <;> exact h

theorem dkeys_nodup_addNfc (tpl : PassTemplate) (d : PDict)
    (h : (dkeys d).Nodup) : (dkeys (addNfc tpl d)).Nodup := by
  simp only [addNfc]
  cases tpl.nfc_data with
  | none => exact h
  | some nfc =>
    split_ifs <;> (repeat apply dkeys_nodup_dinsert) <;> exact h

theorem applePassTypeKey_not_in_body (cfg : WalletConfig) (pd : PassData)
    (tpl : PassTemplate) (nowC nowU : String) (pt : PassType) :
    applePassTypeKey pt ∉
      dkeys (addNfc tpl (addLocations tpl (addWebService cfg tpl (addAuthToken tpl
        (addBarcode tpl pd (addVoided pd (addDates pd (addColors tpl
          (baseDict cfg pd tpl nowC nowU))))))))) := by
  have hnone : dget (addNfc tpl (addLocations tpl (addWebService cfg tpl
      (addAuthToken tpl (addBarcode tpl pd (addVoided pd (addDates pd
        (addColors tpl (baseDict cfg pd tpl nowC nowU)))))))))
      (applePassTypeKey pt) = none := by
    rw [dget_docBody _ _ _ _ _ _
        (applePassTypeKey_ne_of_std pt (by decide))
        (applePassTypeKey_ne_of_std pt (by decide))
        (applePassTypeKey_ne_of_std pt (by decide))
        (applePassTypeKey_ne_of_std pt (by decide))
        (applePassTypeKey_ne_of_std pt (by decide))
        (applePassTypeKey_ne_of_std pt (by decide))
        (applePassTypeKey_ne_of_std pt (by decide))
        (applePassTypeKey_ne_of_std pt (by decide))
        (applePassTypeKey_ne_of_std pt (by decide)),
      dget_addColors_ne _ _ _
        (applePassTypeKey_ne_of_std pt (by decide))
        (applePassTypeKey_ne_of_std pt (by decide))
        (applePassTypeKey_ne_of_std pt (by decide))]
    apply dget_eq_none_of_not_mem
    rw [show dkeys (baseDict cfg pd tpl nowC nowU) =
      ["formatVersion", "passTypeIdentifier", "serialNumber", "teamIdentifier",
       "organizationName", "templateId", "customerId", "organizationId",
       "createdAt", "updatedAt", "description", "logoText"] from rfl]
    intro hmem
    have hsub : ∀ x ∈ ["formatVersion", "passTypeIdentifier", "serialNumber",
        "teamIdentifier", "organizationName", "templateId", "customerId",
        "organizationId", "createdAt", "updatedAt", "description", "logoText"],
        x ∈ stdDocKeys := by decide
    exact applePassTypeKey_not_std pt (hsub _ hmem)
  intro hmem
  rw [← dget_ne_none_iff] at hmem
  exact hmem hnone

/-- **C9 counterexample.** A Google-typed template fed to the Apple
provider: the document's sub-key is the verbatim enumeration value
`"GOOGLE_OFFER"`, not the spec's strip-prefix-and-lower-case derivation
(`"offer"`, nor the lower-cased whole value `"google_offer"`). -/
theorem google_pass_type_subkey_not_stripped :
    specPassTypeKey PassType.GOOGLE_OFFER = "offer" ∧
    dget (resultDoc (generatePassJson sampleCfg samplePd
        (sampleTemplate (some .GOOGLE_OFFER)) "T1" "T2")) "GOOGLE_OFFER" =
      some (.obj []) ∧
    dget (resultDoc (generatePassJson sampleCfg samplePd
        (sampleTemplate (some .GOOGLE_OFFER)) "T1" "T2")) "offer" = none ∧
    dget (resultDoc (generatePassJson sampleCfg samplePd
        (sampleTemplate (some .GOOGLE_OFFER)) "T1" "T2")) "google_offer" = none :=
  ⟨rfl, rfl, rfl, rfl⟩

/-- **C9 amended.** The document sub-key equals the spec's
strip-platform-prefix-and-lower-case derivation exactly for `APPLE_`
pass types; any other enumeration value is used verbatim.  In every case
exactly one pass-type sub-key is present, holding the region field
mapping. -/
theorem passTypeKey_subkey (cfg : WalletConfig) (pd : PassData)
    (tpl : PassTemplate) (nowC nowU : String) (pt : PassType)
    (h : tpl.pass_type = some pt) :
    (applePassTypeKey pt = specPassTypeKey pt ↔ pt.value.take 6 = "APPLE_") ∧
    ∃ doc, generatePassJson cfg pd tpl nowC nowU = .ok doc ∧
      dget doc (applePassTypeKey pt) = some (.obj (regionDict tpl pd)) ∧
      (dkeys doc).count (applePassTypeKey pt) = 1 := by
  constructor
  · cases pt <;> decide
  · unfold generatePassJson
    rw [h]
    refine ⟨_, rfl, ?_, ?_⟩
    · rw [dget_dinsert, if_pos rfl]
    · have hnotin := applePassTypeKey_not_in_body cfg pd tpl nowC nowU pt
      rw [dkeys_dinsert, if_neg hnotin, List.count_append]
      rw [List.count_eq_zero.mpr hnotin]
      simp

/-- Witness for C9 (amended): an Apple event-ticket template gets the
single sub-key `"eventticket"`. -/
theorem passTypeKey_subkey_witness :
    applePassTypeKey .APPLE_EVENTTICKET = specPassTypeKey .APPLE_EVENTTICKET ∧
    ∃ doc, generatePassJson sampleCfg samplePd
        (sampleTemplate (some .APPLE_EVENTTICKET)) "T1" "T2" = .ok doc ∧
      dget doc "eventticket" =
        some (.obj (regionDict (sampleTemplate (some .APPLE_EVENTTICKET)) samplePd)) ∧
      (dkeys doc).count "eventticket" = 1 := by
  have h := passTypeKey_subkey sampleCfg samplePd
    (sampleTemplate (some .APPLE_EVENTTICKET)) "T1" "T2" .APPLE_EVENTTICKET rfl
  exact ⟨h.1.mpr rfl, h.2⟩

/-! ### Claim C3: field arrays, overrides, order -/

theorem dget_addFieldsToPass_ne (d : PDict) (ft : String)
    (fields : List PassField) (pd : PassData) (k : String) (h : k ≠ ft) :
    dget (addFieldsToPass d ft fields pd) k = dget d k := by
  unfold addFieldsToPass
  split
  · rfl
  · exact dget_dinsert_ne (fun he => h he.symm) d _

theorem dget_addFieldsToPass_self (d : PDict) (ft : String)
    (fields : List PassField) (pd : PassData) (hne : fields ≠ []) :
    dget (addFieldsToPass d ft fields pd) ft =
      some (.arr (fields.map (fun f => .obj (fieldEntry pd f)))) := by
  unfold addFieldsToPass
  rw [if_neg (by simpa using hne), dget_dinsert, if_pos rfl]

theorem dget_ite_dinsert_ne {α : Type} (c : Prop) [Decidable c]
    (d : List (String × α)) {k k' : String} (h : k ≠ k') (v : α) :
    dget (if c then dinsert d k v else d) k' = dget d k' := by
  split
  · exact dget_dinsert_ne h d v
  · rfl

theorem dget_fieldEntry_core (pd : PassData) (f : PassField) (k : String)
    (h1 : k ≠ "changeMessage") (h2 : k ≠ "textAlignment") (h3 : k ≠ "dateStyle")
    (h4 : k ≠ "timeStyle") (h5 : k ≠ "isRelative") (h6 : k ≠ "currencyCode")
    (h7 : k ≠ "numberFormat") :
    dget (fieldEntry pd f) k =
      dget [("key", .str f.key), ("label", f.label),
            ("value", (dget pd.field_values f.key).getD f.value)] k := by
  simp only [fieldEntry]
  rw [dget_ite_dinsert_ne _ _ (Ne.symm h7), dget_ite_dinsert_ne _ _ (Ne.symm h6),
      dget_ite_dinsert_ne _ _ (Ne.symm h5), dget_ite_dinsert_ne _ _ (Ne.symm h4),
      dget_ite_dinsert_ne _ _ (Ne.symm h3), dget_ite_dinsert_ne _ _ (Ne.symm h2),
      dget_ite_dinsert_ne _ _ (Ne.symm h1)]

theorem dget_fieldEntry_key (pd : PassData) (f : PassField) :
    dget (fieldEntry pd f) "key" = some (.str f.key) := by
  rw [dget_fieldEntry_core pd f "key" (by decide) (by decide) (by decide)
    (by decide) (by decide) (by decide) (by decide)]
  rfl

theorem dget_fieldEntry_value (pd : PassData) (f : PassField) :
    dget (fieldEntry pd f) "value" =
      some ((dget pd.field_values f.key).getD f.value) := by
  rw [dget_fieldEntry_core pd f "value" (by decide) (by decide) (by decide)
    (by decide) (by decide) (by decide) (by decide)]
  rfl

theorem dget_regionDict_header (tpl : PassTemplate) (pd : PassData)
    (hne : tpl.struct.header_fields ≠ []) :
    dget (regionDict tpl pd) "headerFields" =
      some (.arr (tpl.struct.header_fields.map (fun f => .obj (fieldEntry pd f)))) := by
  unfold regionDict
  rw [dget_addFieldsToPass_ne _ _ _ _ _ (by decide),
      dget_addFieldsToPass_ne _ _ _ _ _ (by decide),
      dget_addFieldsToPass_ne _ _ _ _ _ (by decide),
      dget_addFieldsToPass_ne _ _ _ _ _ (by decide),
      dget_addFieldsToPass_self _ _ _ _ hne]

theorem dget_regionDict_primary (tpl : PassTemplate) (pd : PassData)
    (hne : tpl.struct.primary_fields ≠ []) :
    dget (regionDict tpl pd) "primaryFields" =
      some (.arr (tpl.struct.primary_fields.map (fun f => .obj (fieldEntry pd f)))) := by
  unfold regionDict
  rw [dget_addFieldsToPass_ne _ _ _ _ _ (by decide),
      dget_addFieldsToPass_ne _ _ _ _ _ (by decide),
      dget_addFieldsToPass_ne _ _ _ _ _ (by decide),
      dget_addFieldsToPass_self _ _ _ _ hne]

theorem dget_regionDict_secondary (tpl : PassTemplate) (pd : PassData)
    (hne : tpl.struct.secondary_fields ≠ []) :
    dget (regionDict tpl pd) "secondaryFields" =
      some (.arr (tpl.struct.secondary_fields.map (fun f => .obj (fieldEntry pd f)))) := by
  unfold regionDict
  rw [dget_addFieldsToPass_ne _ _ _ _ _ (by decide),
      dget_addFieldsToPass_ne _ _ _ _ _ (by decide),
      dget_addFieldsToPass_self _ _ _ _ hne]

theorem dget_regionDict_auxiliary (tpl : PassTemplate) (pd : PassData)
    (hne : tpl.struct.auxiliary_fields ≠ []) :
    dget (regionDict tpl pd) "auxiliaryFields" =
      some (.arr (tpl.struct.auxiliary_fields.map (fun f => .obj (fieldEntry pd f)))) := by
  unfold regionDict
  rw [dget_addFieldsToPass_ne _ _ _ _ _ (by decide),
      dget_addFieldsToPass_self _ _ _ _ hne]

theorem dget_regionDict_back (tpl : PassTemplate) (pd : PassData)
    (hne : tpl.struct.back_fields ≠ []) :
    dget (regionDict tpl pd) "backFields" =
      some (.arr (tpl.struct.back_fields.map (fun f => .obj (fieldEntry pd f)))) := by
  unfold regionDict
  rw [dget_addFieldsToPass_self _ _ _ _ hne]

/-- **C3.** For every valid (template, instance) pair, the generated
document's pass-type sub-dictionary contains, for each non-empty region, a
field array in template order whose `i`-th entry carries the `i`-th template
field's key, with value the instance override when the key is present in
`field_values` and the template default otherwise. -/
theorem generated_fields_override_and_order (cfg : WalletConfig)
    (pd : PassData) (tpl : PassTemplate) (nowC nowU : String) (pt : PassType)
    (h : tpl.pass_type = some pt) :
    ∃ doc, generatePassJson cfg pd tpl nowC nowU = .ok doc ∧
      dget doc (applePassTypeKey pt) = some (.obj (regionDict tpl pd)) ∧
      ∀ rn fl,
        (rn, fl) ∈ [("headerFields", tpl.struct.header_fields),
          ("primaryFields", tpl.struct.primary_fields),
          ("secondaryFields", tpl.struct.secondary_fields),
          ("auxiliaryFields", tpl.struct.auxiliary_fields),
          ("backFields", tpl.struct.back_fields)] →
        fl ≠ [] →
        ∃ entries, dget (regionDict tpl pd) rn = some (.arr entries) ∧
          entries.length = fl.length ∧
          ∀ i (hi : i < fl.length),
            entries[i]? = some (.obj (fieldEntry pd (fl.get ⟨i, hi⟩))) ∧
            dget (fieldEntry pd (fl.get ⟨i, hi⟩)) "key" =
              some (.str (fl.get ⟨i, hi⟩).key) ∧
            dget (fieldEntry pd (fl.get ⟨i, hi⟩)) "value" =
              some ((dget pd.field_values (fl.get ⟨i, hi⟩).key).getD
                (fl.get ⟨i, hi⟩).value) := by
  unfold generatePassJson
  rw [h]
  refine ⟨_, rfl, by rw [dget_dinsert, if_pos rfl], ?_⟩
  intro rn fl hmem hne
  have hidx : ∀ i (hi : i < fl.length),
        (fl.map (fun f => PValue.obj (fieldEntry pd f)))[i]? =
          some (.obj (fieldEntry pd (fl.get ⟨i, hi⟩))) ∧
        dget (fieldEntry pd (fl.get ⟨i, hi⟩)) "key" =
          some (.str (fl.get ⟨i, hi⟩).key) ∧
        dget (fieldEntry pd (fl.get ⟨i, hi⟩)) "value" =
          some ((dget pd.field_values (fl.get ⟨i, hi⟩).key).getD
            (fl.get ⟨i, hi⟩).value) := by
    intro i hi
    refine ⟨?_, dget_fieldEntry_key pd _, dget_fieldEntry_value pd _⟩
    rw [List.getElem?_map, List.getElem?_eq_getElem hi]
    rfl
  simp only [List.mem_cons, List.not_mem_nil, or_false, Prod.mk.injEq] at hmem
  rcases hmem with ⟨rfl, rfl⟩ | ⟨rfl, rfl⟩ | ⟨rfl, rfl⟩ | ⟨rfl, rfl⟩ | ⟨rfl, rfl⟩
  · exact ⟨_, dget_regionDict_header tpl pd hne, List.length_map _ _, hidx⟩
  · exact ⟨_, dget_regionDict_primary tpl pd hne, List.length_map _ _, hidx⟩
  · exact ⟨_, dget_regionDict_secondary tpl pd hne, List.length_map _ _, hidx⟩
  · exact ⟨_, dget_regionDict_auxiliary tpl pd hne, List.length_map _ _, hidx⟩
  · exact ⟨_, dget_regionDict_back tpl pd hne, List.length_map _ _, hidx⟩

/-- A header field `event_name` with default value `"Gig"`. -/
def sampleField : PassField :=
  { key := "event_name", label := .str "Event", value := .str "Gig"
    change_message := none, text_alignment := none, date_style := none
    time_style := none, is_relative := false, currency_code := none
    number_format := none }

/-- An event-ticket template with that one header field. -/
def tplOneField : PassTemplate :=
  { sampleTemplate (some .APPLE_EVENTTICKET) with
    struct := { emptyStructure with header_fields := [sampleField] } }

/-- Instance data overriding `event_name` with `"Sold Out Gig"`. -/
def pdOverride : PassData :=
  { samplePd with field_values := [("event_name", .str "Sold Out Gig")] }

/-- Witness for C3: the override wins over the template default in the
generated header field array. -/
theorem generated_fields_override_and_order_witness :
    ∃ doc, generatePassJson sampleCfg pdOverride tplOneField "T1" "T2" = .ok doc ∧
      dget doc "eventticket" = some (.obj (regionDict tplOneField pdOverride)) ∧
      ∃ entries,
        dget (regionDict tplOneField pdOverride) "headerFields" =
          some (.arr entries) ∧
        entries.length = 1 ∧
        entries[0]? = some (.obj (fieldEntry pdOverride sampleField)) ∧
        dget (fieldEntry pdOverride sampleField) "key" =
          some (.str "event_name") ∧
        dget (fieldEntry pdOverride sampleField) "value" =
          some (.str "Sold Out Gig") := by
  obtain ⟨doc, hdoc, hsub, hreg⟩ := generated_fields_override_and_order
    sampleCfg pdOverride tplOneField "T1" "T2" .APPLE_EVENTTICKET rfl
  obtain ⟨entries, he1, he2, he3⟩ :=
    hreg "headerFields" tplOneField.struct.header_fields
      (List.mem_cons_self _ _) (by intro hx; cases hx)
  have h0 := he3 0 (by decide)
  exact ⟨doc, hdoc, hsub, entries, he1, he2.trans rfl, h0.1, h0.2.1, h0.2.2⟩
